import Mathlib

/-!
Verification of the smart-qa-framework test-automation suite: a shallow
embedding of the Playwright BasePage wait/interaction layer
(src/pages/pw/base_page.py), the concrete HomePage/LoginPage page objects,
the shared locator tables, and the OpenCart API client
(src/utils/api/opencart_api_client.py), together with theorems about the
timeout policy, the authentication state machine, the cart parsing logic
and the failure-propagation behaviour of composite page actions.
-/

set_option autoImplicit false

namespace SmartQA

/-! ### A small JSON value model, used for API request/response bodies. -/

/-- JSON values as produced by the Python json module for the API bodies. -/
inductive Json where
  | null
  | bool (b : Bool)
  | num (n : Int)
  | str (s : String)
  | arr (xs : List Json)
  | obj (fields : List (String × Json))

/-- A JSON object body, as a Python dict: an association list of fields. -/
abbrev JsonObj := List (String × Json)

/-- Python truthiness of a JSON value (`bool(v)`): None, False, 0, the empty
string, the empty list and the empty dict are falsy. -/
def Json.pyTruthy : Json → Bool
  | .null => false
  | .bool b => b
  | .num n => n != 0
  | .str s => s != ""
  | .arr xs => !xs.isEmpty
  | .obj fs => !fs.isEmpty

/-! ### Configuration record and the BasePage timeout policy.

`BasePage.__init__` reads `config.get('timeouts', {}).get('default', 30)`
(seconds) and multiplies by 1000, then calls `page.set_default_timeout` with
the result. The Selenium conftest driver fixture reads the same
`timeouts.default` entry (seconds, default 30) for `implicitly_wait`. -/

/-- The slice of the configuration record the BasePage constructor reads:
`application.base_url` and the optional `timeouts.default` entry (seconds). -/
structure Config where
  base_url : String
  timeouts_default : Option Nat

/-- `config.get('timeouts', {}).get('default', 30)` from
`BasePage.__init__`: the configured default timeout in seconds, 30 when the
configuration has no `timeouts.default` entry. -/
def defaultTimeoutSeconds (cfg : Config) : Nat :=
  cfg.timeouts_default.getD 30

/-- `self.timeout = default_timeout * 1000` from `BasePage.__init__`: the
BasePage default timeout in milliseconds, also installed as the driver-level
default via `page.set_default_timeout(self.timeout)`. -/
def basePageTimeout (cfg : Config) : Nat :=
  defaultTimeoutSeconds cfg * 1000

/-- `driver.implicitly_wait(config.get('timeouts', {}).get('default', 30))`
from the Selenium conftest driver fixture: the implicit wait in seconds. -/
def seleniumImplicitWait (cfg : Config) : Nat :=
  defaultTimeoutSeconds cfg

/-! ### Which timeout each BasePage waiting operation passes to the driver.

Each method with an `Optional[int]` timeout parameter does
`if timeout: driver_call(..., timeout=timeout) else: driver_call(...)`
(Python truthiness: passing 0 behaves like passing nothing), while
`is_visible` has signature `timeout: int = 5000` and always passes its
argument through. -/

/-- The timeout argument a BasePage method hands to the underlying driver
call: an explicit millisecond value, or omitted so that the driver-level
default applies. -/
inductive PassedTimeout where
  | explicit (ms : Nat)
  | omitted
deriving DecidableEq

/-- The driver-side timeout in effect for a page-level driver call, given
the driver default installed by `page.set_default_timeout`. -/
def effectiveTimeout (driverDefault : Nat) : PassedTimeout → Nat
  | .explicit ms => ms
  | .omitted => driverDefault

/-- `BasePage.wait_for_selector`: `if timeout:` pass it, else omit it. -/
def wait_for_selector_timeoutArg : Option Nat → PassedTimeout
  | some t => if t = 0 then .omitted else .explicit t
  | none => .omitted

/-- `BasePage.wait_for_url`: `if timeout:` pass it, else omit it. -/
def wait_for_url_timeoutArg : Option Nat → PassedTimeout
  | some t => if t = 0 then .omitted else .explicit t
  | none => .omitted

/-- `BasePage.expect_visible`: `if timeout:` pass it, else omit it. -/
def expect_visible_timeoutArg : Option Nat → PassedTimeout
  | some t => if t = 0 then .omitted else .explicit t
  | none => .omitted

/-- `BasePage.expect_hidden`: `if timeout:` pass it, else omit it. -/
def expect_hidden_timeoutArg : Option Nat → PassedTimeout
  | some t => if t = 0 then .omitted else .explicit t
  | none => .omitted

/-- `BasePage.is_visible(locator, timeout: int = 5000)`: always passes its
timeout argument to `page.is_visible`; the caller-side default is the
hardcoded 5000 ms, not the configured default. -/
def is_visible_timeoutArg : Option Nat → PassedTimeout
  | some t => .explicit t
  | none => .explicit 5000

/-- The waiting operations of the Base Page: navigation settle (`navigate`,
`wait_for_load`, `reload`, `go_back`, `go_forward`), interaction waits
(`click` through `uncheck`), explicit waits (`wait_for_selector`,
`wait_for_url`), state queries (`is_visible`, `is_enabled`, `is_checked`)
and polling assertions (the `expect_*` family). Operations whose source
method has an `Optional[int]` timeout parameter (or, for `is_visible`, an
`int = 5000` parameter) carry the per-call override the caller supplied. -/
inductive WaitingOp where
  | navigate
  | wait_for_load
  | reload
  | go_back
  | go_forward
  | click
  | double_click
  | fill
  | clear_and_fill
  | press_key
  | hover
  | select_option
  | check
  | uncheck
  | wait_for_selector (timeout : Option Nat)
  | wait_for_url (timeout : Option Nat)
  | is_visible (timeout : Option Nat)
  | is_enabled
  | is_checked
  | expect_visible (timeout : Option Nat)
  | expect_hidden (timeout : Option Nat)
  | expect_text
  | expect_value
  | expect_url
  | expect_title
  | expect_enabled
  | expect_disabled
  | expect_checked
  | expect_count
deriving DecidableEq

/-- The timeout argument each waiting operation's driver call receives.
The navigation, interaction and state-query (`is_enabled`/`is_checked`)
calls and the parameterless `expect_*` assertions pass no timeout argument
at all in the source, so the driver-level default installed by
`page.set_default_timeout(self.timeout)` in `BasePage.__init__` is in
effect; the five methods with a timeout parameter dispatch to their
transcriptions above. -/
def timeoutArg : WaitingOp → PassedTimeout
  | .navigate => .omitted
  | .wait_for_load => .omitted
  | .reload => .omitted
  | .go_back => .omitted
  | .go_forward => .omitted
  | .click => .omitted
  | .double_click => .omitted
  | .fill => .omitted
  | .clear_and_fill => .omitted
  | .press_key => .omitted
  | .hover => .omitted
  | .select_option => .omitted
  | .check => .omitted
  | .uncheck => .omitted
  | .wait_for_selector o => wait_for_selector_timeoutArg o
  | .wait_for_url o => wait_for_url_timeoutArg o
  | .is_visible o => is_visible_timeoutArg o
  | .is_enabled => .omitted
  | .is_checked => .omitted
  | .expect_visible o => expect_visible_timeoutArg o
  | .expect_hidden o => expect_hidden_timeoutArg o
  | .expect_text => .omitted
  | .expect_value => .omitted
  | .expect_url => .omitted
  | .expect_title => .omitted
  | .expect_enabled => .omitted
  | .expect_disabled => .omitted
  | .expect_checked => .omitted
  | .expect_count => .omitted

/-- The explicit per-call override supplied to a waiting operation: only
the five methods with a timeout parameter can receive one. -/
def overrideOf : WaitingOp → Option Nat
  | .wait_for_selector o => o
  | .wait_for_url o => o
  | .is_visible o => o
  | .expect_visible o => o
  | .expect_hidden o => o
  | _ => none

/-! ### OpenCart API client (src/utils/api/opencart_api_client.py).

The client holds a base URL, credentials, an optional session token and the
requests-session cookie jar. `login` posts credentials and, on a body with
an `api_token` field and no `error` field, stores the token and sets the
`OCSESSID` cookie with the hardcoded domain `192.168.50.103` and path `/`.
A raised Python exception leaves the object unchanged, so failing paths are
modelled as `Except.error` carrying the error and the unchanged state. -/

/-- One cookie in the requests session jar. -/
structure Cookie where
  name : String
  value : Json
  domain : String
  path : String

/-- `session.cookies.set(name, value, domain, path)`: replace any cookie
with the same name, domain and path, then record the new cookie. -/
def setCookie (jar : List Cookie) (c : Cookie) : List Cookie :=
  jar.filter (fun c2 => !(c2.name == c.name && c2.domain == c.domain && c2.path == c.path)) ++ [c]

/-- The mutable state of an `OpenCartAPIClient` instance. -/
structure ClientState where
  base_url : String
  username : String
  api_key : String
  api_token : Option Json
  cookies : List Cookie

/-- The failures `OpenCartAPIClient.login` raises (AssertionError): an
in-band `error` field, or a body with neither `error` nor `api_token`. -/
inductive LoginError where
  | loginFailed (err : Json)
  | noApiToken

/-- `OpenCartAPIClient.login`, applied to the HTTP response it received:
check the body for `error` first, then store the token and set the
`OCSESSID` session cookie (domain `192.168.50.103`, path `/`) when
`api_token` is present, and otherwise raise. The HTTP status code is never
inspected. On `Except.error` the carried state is the unchanged client. -/
def login (st : ClientState) (status : Nat) (body : JsonObj) :
    Except (LoginError × ClientState) ClientState :=
  match body.lookup "error" with
  | some e => .error (.loginFailed e, st)
  | none =>
    match body.lookup "api_token" with
    | some tok =>
        .ok { st with
                api_token := some tok,
                cookies := setCookie st.cookies
                  { name := "OCSESSID", value := tok,
                    domain := "192.168.50.103", path := "/" } }
    | none => .error (.noApiToken, st)

/-- `OpenCartAPIClient._build_url`: strip leading slashes, keep routes that
already start with `index.php`, otherwise wrap in `index.php?route=`. -/
def buildUrl (baseUrl route : String) : String :=
  let r := if route.startsWith "/" then route.dropWhile (fun ch => ch = '/') else route
  if r.startsWith "index.php" then baseUrl ++ "/" ++ r
  else baseUrl ++ "/index.php?route=" ++ r

/-- The error `_ensure_authenticated` raises: the
"Not authenticated. Call login() first." AssertionError. -/
inductive ApiError where
  | notAuthenticated
deriving DecidableEq

/-- `OpenCartAPIClient._ensure_authenticated`: `if not self.api_token:`
raise — fails when the token is unset or Python-falsy. -/
def ensure_authenticated (st : ClientState) : Except ApiError Unit :=
  match st.api_token with
  | none => .error .notAuthenticated
  | some tok => if tok.pyTruthy then .ok () else .error .notAuthenticated

/-- HTTP method of a request issued by the client. -/
inductive HttpMethod where
  | GET
  | POST
deriving DecidableEq

/-- The network request a client method hands to the requests session; an
`Except.error ApiError.notAuthenticated` result means the method raised
before any such request was issued. -/
structure HttpRequest where
  method : HttpMethod
  url : String
  params : Option JsonObj
  formData : Option JsonObj
  jsonData : Option JsonObj

/-- `OpenCartAPIClient.get`: authentication check first, then issue a GET
to the built URL. -/
def get (st : ClientState) (route : String) (params : Option JsonObj) :
    Except ApiError HttpRequest :=
  match ensure_authenticated st with
  | .error e => .error e
  | .ok _ => .ok { method := .GET, url := buildUrl st.base_url route,
                   params := params, formData := none, jsonData := none }

/-- `OpenCartAPIClient.post`: authentication check first, then issue a POST
to the built URL. -/
def post (st : ClientState) (route : String) (data json : Option JsonObj) :
    Except ApiError HttpRequest :=
  match ensure_authenticated st with
  | .error e => .error e
  | .ok _ => .ok { method := .POST, url := buildUrl st.base_url route,
                   params := none, formData := data, jsonData := json }

/-- `OpenCartAPIClient.delete`: delegates to `post`. -/
def delete (st : ClientState) (route : String) (data : Option JsonObj) :
    Except ApiError HttpRequest :=
  post st route data none

/-- The request stage of `OpenCartAPIClient.get_cart`. -/
def get_cart_request (st : ClientState) : Except ApiError HttpRequest :=
  get st "api/sale/cart" none

/-- The request stage of `OpenCartAPIClient.add_to_cart`. -/
def add_to_cart_request (st : ClientState) (product_id quantity : Int) :
    Except ApiError HttpRequest :=
  post st "api/sale/cart.add"
    (some [("product_id", Json.num product_id), ("quantity", Json.num quantity)]) none

/-- The request stage of `OpenCartAPIClient.remove_from_cart`: posts the
line-item id under the form field `key`. -/
def remove_from_cart_request (st : ClientState) (cart_id : Int) :
    Except ApiError HttpRequest :=
  post st "api/sale/cart.remove" (some [("key", Json.num cart_id)]) none

/-- The request stage of `OpenCartAPIClient.set_customer`. -/
def set_customer_request (st : ClientState) (customer_data : JsonObj) :
    Except ApiError HttpRequest :=
  post st "api/sale/customer" (some customer_data) none

/-- The request stage of `OpenCartAPIClient.get_order`. -/
def get_order_request (st : ClientState) (order_id : Int) :
    Except ApiError HttpRequest :=
  post st "api/sale/order.load" (some [("order_id", Json.num order_id)]) none

/-- The empty-cart value `get_cart` returns for an empty response body:
`{"products": [], "totals": [], "vouchers": [], "shipping_required": False}`. -/
def emptyCartJson : Json :=
  .obj [("products", .arr []), ("totals", .arr []),
        ("vouchers", .arr []), ("shipping_required", .bool false)]

/-- Python `str.strip()`: remove leading and trailing whitespace. -/
def pyStrip (s : String) : String :=
  ⟨((s.data.dropWhile Char.isWhitespace).reverse.dropWhile Char.isWhitespace).reverse⟩

/-- The response-parsing stage of `OpenCartAPIClient.get_cart`, applied to
the response text. `parsed` is the outcome of Python's `response.json()` on
that text: `some v` when the text is valid JSON parsing to `v`, `none` when
parsing raises. The code returns the empty-cart value for an empty or
whitespace-only body (`if not response.text or response.text.strip() == ''`)
before attempting to parse, and raises an AssertionError carrying the first
200 characters of the body (`response.text[:200]`) on a parse failure. -/
def get_cart_parse (text : String) (parsed : Option Json) : Except String Json :=
  if text = "" ∨ pyStrip text = "" then .ok emptyCartJson
  else
    match parsed with
    | some v => .ok v
    | none => .error ("Invalid JSON response: " ++ text.take 200)

/-! ### Locator tables (src/locators/). Selector strings shared by both
automation backends; apostrophes are written as \x27. -/

namespace HomeLocators

/-- `HomeLocators.MY_ACCOUNT_DROPDOWN`. -/
def MY_ACCOUNT_DROPDOWN : String := "a.dropdown-toggle:has-text(\x27My Account\x27)"

/-- `HomeLocators.LOGIN_LINK`. -/
def LOGIN_LINK : String := "a.dropdown-item:has-text(\x27Login\x27)"

/-- `HomeLocators.REGISTER_LINK`. -/
def REGISTER_LINK : String := "a.dropdown-item:has-text(\x27Register\x27)"

end HomeLocators

namespace LoginLocators

/-- `LoginLocators.EMAIL_INPUT`. -/
def EMAIL_INPUT : String := "#input-email"

/-- `LoginLocators.PASSWORD_INPUT`. -/
def PASSWORD_INPUT : String := "#input-password"

/-- `LoginLocators.LOGIN_BUTTON`. -/
def LOGIN_BUTTON : String := "button[type=\x27submit\x27]"

end LoginLocators

/-! ### Driver calls and sequential execution of composite actions.

A BasePage method body is a sequence of calls into the Playwright driver.
A composite page-object action is embedded as its list of driver calls;
`runSteps` executes them in order against a driver behaviour, stopping at
the first call that raises (Python exception propagation — there is no
try/except around any step), and `attempted` is the list of calls actually
issued. -/

/-- One call into the underlying Playwright driver. -/
inductive DriverCall where
  | click (selector : String)
  | fill (selector : String) (text : String)
  | goto (url : String)
  | reloadPage
  | goBack
  | goForward
  | waitForLoadState (state : String)
deriving DecidableEq

/-- Run driver calls in order against a driver behaviour; the first raised
error propagates unchanged and aborts the remaining calls. -/
def runSteps {ε : Type} (behave : DriverCall → Except ε Unit) :
    List DriverCall → Except ε Unit
  | [] => .ok ()
  | c :: cs =>
    match behave c with
    | .error e => .error e
    | .ok _ => runSteps behave cs

/-- The driver calls actually issued when running a sequence of steps:
every call up to and including the first one that raises. -/
def attempted {ε : Type} (behave : DriverCall → Except ε Unit) :
    List DriverCall → List DriverCall
  | [] => []
  | c :: cs =>
    match behave c with
    | .error _ => [c]
    | .ok _ => c :: attempted behave cs

/-! ### Navigation verbs (BasePage) as driver-call sequences. Each performs
its navigation call and then `page.wait_for_load_state('networkidle')`. -/

/-- `BasePage.navigate(path)`: `page.goto(base_url + path)` then
`page.wait_for_load_state('networkidle')`. -/
def navigateSteps (baseUrl path : String) : List DriverCall :=
  [.goto (baseUrl ++ path), .waitForLoadState "networkidle"]

/-- `BasePage.reload`: `page.reload()` then `wait_for_load` (which is
`page.wait_for_load_state('networkidle')`). -/
def reloadSteps : List DriverCall :=
  [.reloadPage, .waitForLoadState "networkidle"]

/-- `BasePage.go_back`: `page.go_back()` then `wait_for_load`. -/
def goBackSteps : List DriverCall :=
  [.goBack, .waitForLoadState "networkidle"]

/-- `BasePage.go_forward`: `page.go_forward()` then `wait_for_load`. -/
def goForwardSteps : List DriverCall :=
  [.goForward, .waitForLoadState "networkidle"]

/-! ### Composite page-object actions as driver-call sequences. -/

/-- `HomePage.click_login`: click the My Account dropdown, click the Login
link, then wait for the page to load. -/
def clickLoginSteps : List DriverCall :=
  [.click HomeLocators.MY_ACCOUNT_DROPDOWN,
   .click HomeLocators.LOGIN_LINK,
   .waitForLoadState "networkidle"]

/-- `HomePage.click_register`: click the My Account dropdown, click the
Register link, then wait for the page to load. -/
def clickRegisterSteps : List DriverCall :=
  [.click HomeLocators.MY_ACCOUNT_DROPDOWN,
   .click HomeLocators.REGISTER_LINK,
   .waitForLoadState "networkidle"]

/-- `LoginPage.login(email, password)`: fill the email field, fill the
password field, click the submit button, then wait for the page to load. -/
def loginPageSteps (email password : String) : List DriverCall :=
  [.fill LoginLocators.EMAIL_INPUT email,
   .fill LoginLocators.PASSWORD_INPUT password,
   .click LoginLocators.LOGIN_BUTTON,
   .waitForLoadState "networkidle"]

/-! ### Field state and fill semantics.

`BasePage.fill` is a single delegation to the external driver's
`Page.fill`, whose contract (spec §4.2 glossary, Playwright documentation)
is replace-then-type: the field's prior content is discarded and the new
text becomes the field value. The driver is modelled by a page state
mapping each selector to its current field value. -/

/-- The observable input-field state of the driven page. -/
structure PageState where
  fields : String → String

/-- External driver model: `Page.fill(selector, text)` replaces the content
of the matched field with `text`. -/
def pageFill (st : PageState) (selector text : String) : PageState :=
  ⟨fun s => if s = selector then text else st.fields s⟩

/-- `BasePage.fill(locator, text)`: a single `page.fill(locator, text)`
driver call. -/
def basePageFill (st : PageState) (locator text : String) : PageState :=
  pageFill st locator text

/-- External driver model: reading the current value of an input field. -/
def pageInputValue (st : PageState) (selector : String) : String :=
  st.fields selector

/-! ### Non-throwing state queries.

`BasePage.is_visible`, `is_enabled` and `is_checked` each wrap their driver
call in `try: return ... except Exception: return False`. The driver call
outcome is either a boolean or a raised internal error. -/

namespace BasePage

/-- `BasePage.is_visible`: the driver result, or False if the driver call
raised any exception. -/
def is_visible (driverOutcome : Except String Bool) : Bool :=
  match driverOutcome with
  | .ok b => b
  | .error _ => false

/-- `BasePage.is_enabled`: the driver result, or False if the driver call
raised any exception. -/
def is_enabled (driverOutcome : Except String Bool) : Bool :=
  match driverOutcome with
  | .ok b => b
  | .error _ => false

/-- `BasePage.is_checked`: the driver result, or False if the driver call
raised any exception. -/
def is_checked (driverOutcome : Except String Bool) : Bool :=
  match driverOutcome with
  | .ok b => b
  | .error _ => false

end BasePage

/-! ### Concrete instances used to exercise the theorems. -/

/-- A configuration record with no `timeouts.default` entry. -/
def cfgNoTimeout : Config :=
  { base_url := "http://192.168.50.103:8080", timeouts_default := none }

/-- A freshly constructed, unauthenticated API client state. -/
def freshClient : ClientState :=
  { base_url := "http://192.168.50.103:8080", username := "apiuser",
    api_key := "secret", api_token := none, cookies := [] }

/-- A client state holding a non-empty session token. -/
def authedClient : ClientState :=
  { freshClient with api_token := some (Json.str "token123") }

/-- A client state after a login that stored an empty-string token. -/
def emptyTokenClient : ClientState :=
  { freshClient with api_token := some (Json.str "") }

/-- A driver behaviour whose click on the Login link raises (the link is
not attached), while every other call succeeds. -/
def failOnLoginLink : DriverCall → Except String Unit
  | .click s =>
    if s = HomeLocators.LOGIN_LINK then .error "element is not attached to the DOM"
    else .ok ()
  | _ => .ok ()

/-- A driver behaviour for a page that never reaches the network-idle
state: every `wait_for_load_state` call times out. -/
def neverSettles : DriverCall → Except String Unit
  | .waitForLoadState _ => .error "Timeout 30000ms exceeded"
  | _ => .ok ()

/-! ## Shared helper lemmas -/

/-- Running steps where every behaviour call succeeds: the run succeeds and
every step is issued, in order. -/
theorem runSteps_all_ok {ε : Type} (behave : DriverCall → Except ε Unit)
    (steps : List DriverCall) (h : ∀ d ∈ steps, behave d = .ok ()) :
    runSteps behave steps = .ok () ∧ attempted behave steps = steps := by
  induction steps with
  | nil => exact ⟨rfl, rfl⟩
  | cons c cs ih =>
    have hc : behave c = .ok () := h c (List.mem_cons_self c cs)
    have hcs := ih (fun d hd => h d (List.mem_cons_of_mem c hd))
    simp [runSteps, attempted, hc, hcs.1, hcs.2]

/-- Running steps whose first failing call is `c`: the run raises the
underlying error unchanged, the steps before `c` are issued in order, and
nothing after `c` is issued. -/
theorem runSteps_error_at {ε : Type} (behave : DriverCall → Except ε Unit)
    (fore : List DriverCall) (c : DriverCall) (post : List DriverCall) (e : ε)
    (hfore : ∀ d ∈ fore, behave d = .ok ()) (hc : behave c = .error e) :
    runSteps behave (fore ++ c :: post) = .error e ∧
    attempted behave (fore ++ c :: post) = fore ++ [c] := by
  induction fore with
  | nil => simp [runSteps, attempted, hc]
  | cons d ds ih =>
    have hd : behave d = .ok () := hfore d (List.mem_cons_self d ds)
    have hds := ih (fun x hx => hfore x (List.mem_cons_of_mem d hx))
    simp [runSteps, attempted, hd, hds.1, hds.2]

/-- Successful-login shape: with no `error` field and an `api_token` field,
`login` stores the token and sets the hardcoded `OCSESSID` cookie. -/
theorem login_token_ok (st : ClientState) (status : Nat) (body : JsonObj)
    (tok : Json) (herr : body.lookup "error" = none)
    (htok : body.lookup "api_token" = some tok) :
    login st status body =
      .ok { st with
              api_token := some tok,
              cookies := setCookie st.cookies
                { name := "OCSESSID", value := tok,
                  domain := "192.168.50.103", path := "/" } } := by
  simp [login, herr, htok]

/-! ## Claim theorems -/

/-- C1 counterexample: with no `timeouts.default` entry the BasePage
default timeout is 30000 ms, not the 10000 ms the claim states. -/
theorem C1_counterexample :
    basePageTimeout cfgNoTimeout = 30000 ∧ basePageTimeout cfgNoTimeout ≠ 10000 :=
  ⟨rfl, by decide⟩

/-- C1 (amended): if the configuration record has no `timeouts.default`
entry, the BasePage default timeout that governs waiting operations equals
thirty seconds, i.e. 30000 ms after the seconds-to-milliseconds conversion
in `BasePage.__init__`; the Selenium conftest driver fixture applies the
same 30-second default to `implicitly_wait`. -/
theorem C1_default_timeout_thirty_seconds (cfg : Config)
    (h : cfg.timeouts_default = none) :
    basePageTimeout cfg = 30000 ∧ seleniumImplicitWait cfg = 30 := by
  simp [basePageTimeout, seleniumImplicitWait, defaultTimeoutSeconds, h]

/-- C1 witness: the amended default-timeout theorem at a configuration
with no `timeouts.default` entry. -/
theorem C1_default_timeout_witness :
    basePageTimeout cfgNoTimeout = 30000 ∧ seleniumImplicitWait cfgNoTimeout = 30 :=
  C1_default_timeout_thirty_seconds cfgNoTimeout rfl

/-- C2 counterexample: two waiting operations whose effective timeout is
not "the configured default unless an explicit override is supplied" —
`is_visible` with no override uses a hardcoded 5000 ms instead of the
30000 ms default of an unconfigured BasePage, and `wait_for_selector` with
the explicit override 0 uses the configured default instead of the
supplied override (`if timeout:` treats 0 as absent). -/
theorem C2_counterexample :
    effectiveTimeout (basePageTimeout cfgNoTimeout)
        (timeoutArg (WaitingOp.is_visible none)) = 5000 ∧
    effectiveTimeout (basePageTimeout cfgNoTimeout)
        (timeoutArg (WaitingOp.is_visible none)) ≠ basePageTimeout cfgNoTimeout ∧
    effectiveTimeout (basePageTimeout cfgNoTimeout)
        (timeoutArg (WaitingOp.wait_for_selector (some 0))) = basePageTimeout cfgNoTimeout ∧
    effectiveTimeout (basePageTimeout cfgNoTimeout)
        (timeoutArg (WaitingOp.wait_for_selector (some 0))) ≠ 0 :=
  ⟨rfl, by decide, rfl, by decide⟩

/-- C2 (amended): for every waiting operation of the Base Page —
navigation settle, interaction waits, explicit waits, state queries,
polling assertions — the timeout in effect is the single configured
default set in `BasePage.__init__` unless an explicit per-call override is
supplied, with exactly the two exceptions the code forces: `is_visible`
uses a hardcoded 5000 ms when no override is supplied, and the methods
that guard their parameter with `if timeout:` (`wait_for_selector`,
`wait_for_url`, `expect_visible`, `expect_hidden`) treat a supplied
override of 0 as absent, so the configured default applies; `is_visible`
passes every supplied override through, 0 included. -/
theorem C2_timeout_policy (cfg : Config) (op : WaitingOp) :
    (overrideOf op = none → op ≠ WaitingOp.is_visible none →
      effectiveTimeout (basePageTimeout cfg) (timeoutArg op) = basePageTimeout cfg) ∧
    effectiveTimeout (basePageTimeout cfg) (timeoutArg (WaitingOp.is_visible none)) = 5000 ∧
    (∀ t, t ≠ 0 → overrideOf op = some t →
      effectiveTimeout (basePageTimeout cfg) (timeoutArg op) = t) ∧
    (overrideOf op = some 0 → op ≠ WaitingOp.is_visible (some 0) →
      effectiveTimeout (basePageTimeout cfg) (timeoutArg op) = basePageTimeout cfg) ∧
    (∀ t, effectiveTimeout (basePageTimeout cfg)
      (timeoutArg (WaitingOp.is_visible (some t))) = t) := by
  refine ⟨?_, rfl, ?_, ?_, fun t => rfl⟩
  · intro h hne
    cases op <;>
      simp_all [overrideOf, timeoutArg, wait_for_selector_timeoutArg,
                wait_for_url_timeoutArg, expect_visible_timeoutArg,
                expect_hidden_timeoutArg, is_visible_timeoutArg, effectiveTimeout]
  · intro t ht h
    cases op <;>
      simp_all [overrideOf, timeoutArg, wait_for_selector_timeoutArg,
                wait_for_url_timeoutArg, expect_visible_timeoutArg,
                expect_hidden_timeoutArg, is_visible_timeoutArg, effectiveTimeout]
  · intro h hne
    cases op <;>
      simp_all [overrideOf, timeoutArg, wait_for_selector_timeoutArg,
                wait_for_url_timeoutArg, expect_visible_timeoutArg,
                expect_hidden_timeoutArg, is_visible_timeoutArg, effectiveTimeout]

/-- C2 witness: the amended timeout-policy theorem at an unconfigured
record — an interaction wait with no override, `is_visible` with no
override, and `wait_for_selector` with a 2000 ms and with a 0 override. -/
theorem C2_timeout_policy_witness :
    effectiveTimeout (basePageTimeout cfgNoTimeout) (timeoutArg WaitingOp.click) =
      basePageTimeout cfgNoTimeout ∧
    effectiveTimeout (basePageTimeout cfgNoTimeout)
        (timeoutArg (WaitingOp.is_visible none)) = 5000 ∧
    effectiveTimeout (basePageTimeout cfgNoTimeout)
        (timeoutArg (WaitingOp.wait_for_selector (some 2000))) = 2000 ∧
    effectiveTimeout (basePageTimeout cfgNoTimeout)
        (timeoutArg (WaitingOp.wait_for_selector (some 0))) = basePageTimeout cfgNoTimeout :=
  ⟨(C2_timeout_policy cfgNoTimeout WaitingOp.click).1 rfl (by decide),
   (C2_timeout_policy cfgNoTimeout WaitingOp.click).2.1,
   (C2_timeout_policy cfgNoTimeout (WaitingOp.wait_for_selector (some 2000))).2.2.1
     2000 (by decide) rfl,
   (C2_timeout_policy cfgNoTimeout (WaitingOp.wait_for_selector (some 0))).2.2.2.1
     rfl (by decide)⟩

/-- C3: for every response body and every HTTP status code, `login` raises
whenever the body contains an `error` field, and whenever it contains
neither `error` nor `api_token`; in both failing cases the client state is
unchanged (so `api_token` stays `None` and no session cookie is set), and
the token is stored exactly when `api_token` is present without `error`. -/
theorem C3_login_error_handling (st : ClientState) (status : Nat) (body : JsonObj) :
    (∀ e, body.lookup "error" = some e →
      login st status body = .error (.loginFailed e, st)) ∧
    (body.lookup "error" = none → body.lookup "api_token" = none →
      login st status body = .error (.noApiToken, st)) ∧
    (∀ tok, body.lookup "error" = none → body.lookup "api_token" = some tok →
      ∃ st2, login st status body = .ok st2 ∧ st2.api_token = some tok) := by
  refine ⟨?_, ?_, ?_⟩
  · intro e he
    simp [login, he]
  · intro he ht
    simp [login, he, ht]
  · intro tok he ht
    exact ⟨_, login_token_ok st status body tok he ht, rfl⟩

/-- C3 witness: the login error-handling theorem at concrete bodies — an
in-band error at HTTP 200, and a body with neither field. -/
theorem C3_login_witness :
    login freshClient 200 [("error", Json.str "Invalid api key")] =
      .error (.loginFailed (Json.str "Invalid api key"), freshClient) ∧
    login freshClient 200 [("success", Json.bool true)] =
      .error (.noApiToken, freshClient) :=
  ⟨(C3_login_error_handling freshClient 200 [("error", Json.str "Invalid api key")]).1
      (Json.str "Invalid api key") rfl,
   (C3_login_error_handling freshClient 200 [("success", Json.bool true)]).2.1 rfl rfl⟩

/-- C4 counterexample: a login whose body carries an empty-string
`api_token` succeeds and stores the token, yet the very next `get` raises
the not-authenticated error — the authentication check does not pass after
every successful login, because `if not self.api_token` treats the stored
empty string as unset. -/
theorem C4_counterexample :
    Except.map (fun st => get st "api/sale/cart" none)
        (login freshClient 200 [("api_token", Json.str "")]) =
      .ok (.error ApiError.notAuthenticated) := rfl

/-- C4 (amended): every API operation other than login (`get`, `post`,
`delete`, and hence the cart, customer and order wrappers) raises the
explicit "Not authenticated. Call login() first." error before any network
request is issued whenever `api_token` is unset; after a login that stored
a Python-truthy (non-empty) token, the authentication check passes and the
request is issued. -/
theorem C4_auth_gate (st : ClientState) (route : String)
    (params data jsonBody : Option JsonObj)
    (pid qty cid oid : Int) (cust : JsonObj) :
    ((st.api_token = none ∨ ∃ tok, st.api_token = some tok ∧ tok.pyTruthy = false) →
      get st route params = .error .notAuthenticated ∧
      post st route data jsonBody = .error .notAuthenticated ∧
      delete st route data = .error .notAuthenticated ∧
      get_cart_request st = .error .notAuthenticated ∧
      add_to_cart_request st pid qty = .error .notAuthenticated ∧
      remove_from_cart_request st cid = .error .notAuthenticated ∧
      set_customer_request st cust = .error .notAuthenticated ∧
      get_order_request st oid = .error .notAuthenticated) ∧
    (∀ tok, st.api_token = some tok → tok.pyTruthy = true →
      get st route params =
        .ok { method := .GET, url := buildUrl st.base_url route,
              params := params, formData := none, jsonData := none } ∧
      post st route data jsonBody =
        .ok { method := .POST, url := buildUrl st.base_url route,
              params := none, formData := data, jsonData := jsonBody }) := by
  constructor
  · intro h
    have he : ensure_authenticated st = .error .notAuthenticated := by
      rcases h with h | ⟨tok, h1, h2⟩
      · simp [ensure_authenticated, h]
      · simp [ensure_authenticated, h1, h2]
    simp [get, post, delete, get_cart_request, add_to_cart_request,
          remove_from_cart_request, set_customer_request, get_order_request, he]
  · intro tok h ht
    simp [get, post, ensure_authenticated, h, ht]

/-- C4 witness: the authentication gate at a fresh (token-less) client, at
a client whose stored token is the falsy empty string, and at a client
holding a non-empty token. -/
theorem C4_auth_gate_witness :
    get freshClient "api/sale/cart" none = .error ApiError.notAuthenticated ∧
    get emptyTokenClient "api/sale/cart" none = .error ApiError.notAuthenticated ∧
    get_cart_request freshClient = .error ApiError.notAuthenticated ∧
    get authedClient "api/sale/cart" none =
      .ok { method := .GET, url := buildUrl authedClient.base_url "api/sale/cart",
            params := none, formData := none, jsonData := none } :=
  ⟨((C4_auth_gate freshClient "api/sale/cart" none none none 0 0 0 0 []).1 (Or.inl rfl)).1,
   ((C4_auth_gate emptyTokenClient "api/sale/cart" none none none 0 0 0 0 []).1
      (Or.inr ⟨Json.str "", rfl, rfl⟩)).1,
   ((C4_auth_gate freshClient "api/sale/cart" none none none 0 0 0 0 []).1
      (Or.inl rfl)).2.2.2.1,
   ((C4_auth_gate authedClient "api/sale/cart" none none none 0 0 0 0 []).2
      (Json.str "token123") rfl rfl).1⟩

/-- C5: `get_cart` returns the fixed empty-cart value for an empty or
whitespace-only body, returns the parsed value unchanged for a body that
parses as JSON, and for a non-empty body that fails to parse raises a
failure whose message carries the first 200 characters of the body. -/
theorem C5_get_cart_parsing (text : String) (parsed : Option Json) :
    (pyStrip text = "" → get_cart_parse text parsed = .ok emptyCartJson) ∧
    (∀ v, pyStrip text ≠ "" → parsed = some v →
      get_cart_parse text parsed = .ok v) ∧
    (pyStrip text ≠ "" → parsed = none →
      get_cart_parse text parsed =
        .error ("Invalid JSON response: " ++ text.take 200)) := by
  refine ⟨?_, ?_, ?_⟩
  · intro h
    simp [get_cart_parse, h]
  · intro v h hp
    have hne : ¬(text = "" ∨ pyStrip text = "") := by
      rintro (h1 | h2)
      · exact h (by rw [h1]; rfl)
      · exact h h2
    simp [get_cart_parse, hne, hp]
  · intro h hp
    have hne : ¬(text = "" ∨ pyStrip text = "") := by
      rintro (h1 | h2)
      · exact h (by rw [h1]; rfl)
      · exact h h2
    simp [get_cart_parse, hne, hp]

/-- C5 witness: the cart-parsing theorem at a whitespace-only body, at a
parsed JSON body, and at a malformed non-empty body. -/
theorem C5_get_cart_witness :
    get_cart_parse "  " none = .ok emptyCartJson ∧
    get_cart_parse "[]" (some (Json.arr [])) = .ok (Json.arr []) ∧
    get_cart_parse "<html>fatal error</html>" none =
      .error ("Invalid JSON response: " ++ ("<html>fatal error</html>" : String).take 200) :=
  ⟨(C5_get_cart_parsing "  " none).1 rfl,
   (C5_get_cart_parsing "[]" (some (Json.arr []))).2.1 (Json.arr []) (by decide) rfl,
   (C5_get_cart_parsing "<html>fatal error</html>" none).2.2 (by decide) rfl⟩

/-- C6: the state queries `is_visible`, `is_enabled` and `is_checked` are
total boolean functions of the driver outcome: they return the driver's
boolean on success and return False — never propagating — when the driver
call raised any internal error. -/
theorem C6_state_queries_never_raise (b : Bool) (e : String) :
    BasePage.is_visible (.ok b) = b ∧ BasePage.is_visible (.error e) = false ∧
    BasePage.is_enabled (.ok b) = b ∧ BasePage.is_enabled (.error e) = false ∧
    BasePage.is_checked (.ok b) = b ∧ BasePage.is_checked (.error e) = false := by
  simp [BasePage.is_visible, BasePage.is_enabled, BasePage.is_checked]

/-- C7: filling a field with prior text `p` and then with new text `t`
leaves the field holding exactly `t` — `fill` replaces prior content
rather than appending to it. -/
theorem C7_fill_replaces (st : PageState) (selector p t : String) :
    pageInputValue (basePageFill (basePageFill st selector p) selector t) selector = t := by
  simp [basePageFill, pageFill, pageInputValue]

/-- C8: each composite page-object action (`HomePage.click_login`,
`HomePage.click_register`, `LoginPage.login`) issues its low-level steps in
the stated order; if any step raises, the action raises that underlying
error unchanged and issues none of the remaining steps, and if every step
succeeds the action performs exactly its step list in order. -/
theorem C8_composite_actions_propagate {ε : Type}
    (behave : DriverCall → Except ε Unit)
    (fore : List DriverCall) (c : DriverCall) (post : List DriverCall) (e : ε)
    (email password : String) :
    (clickLoginSteps = fore ++ c :: post →
      (∀ d ∈ fore, behave d = .ok ()) → behave c = .error e →
      runSteps behave clickLoginSteps = .error e ∧
      attempted behave clickLoginSteps = fore ++ [c]) ∧
    (clickRegisterSteps = fore ++ c :: post →
      (∀ d ∈ fore, behave d = .ok ()) → behave c = .error e →
      runSteps behave clickRegisterSteps = .error e ∧
      attempted behave clickRegisterSteps = fore ++ [c]) ∧
    (loginPageSteps email password = fore ++ c :: post →
      (∀ d ∈ fore, behave d = .ok ()) → behave c = .error e →
      runSteps behave (loginPageSteps email password) = .error e ∧
      attempted behave (loginPageSteps email password) = fore ++ [c]) ∧
    ((∀ d ∈ clickLoginSteps, behave d = .ok ()) →
      runSteps behave clickLoginSteps = .ok () ∧
      attempted behave clickLoginSteps = clickLoginSteps) ∧
    ((∀ d ∈ clickRegisterSteps, behave d = .ok ()) →
      runSteps behave clickRegisterSteps = .ok () ∧
      attempted behave clickRegisterSteps = clickRegisterSteps) ∧
    ((∀ d ∈ loginPageSteps email password, behave d = .ok ()) →
      runSteps behave (loginPageSteps email password) = .ok () ∧
      attempted behave (loginPageSteps email password) = loginPageSteps email password) := by
  refine ⟨?_, ?_, ?_, ?_, ?_, ?_⟩
  · intro heq hfore hc
    rw [heq]
    exact runSteps_error_at behave fore c post e hfore hc
  · intro heq hfore hc
    rw [heq]
    exact runSteps_error_at behave fore c post e hfore hc
  · intro heq hfore hc
    rw [heq]
    exact runSteps_error_at behave fore c post e hfore hc
  · intro h
    exact runSteps_all_ok behave clickLoginSteps h
  · intro h
    exact runSteps_all_ok behave clickRegisterSteps h
  · intro h
    exact runSteps_all_ok behave (loginPageSteps email password) h

/-- C8 witness: `click_login` against a driver whose Login-link click
raises — the first click is issued, the action raises the underlying
element error unchanged, and the wait step is never issued. -/
theorem C8_composite_witness :
    runSteps failOnLoginLink clickLoginSteps =
      .error "element is not attached to the DOM" ∧
    attempted failOnLoginLink clickLoginSteps =
      [DriverCall.click HomeLocators.MY_ACCOUNT_DROPDOWN,
       DriverCall.click HomeLocators.LOGIN_LINK] :=
  (C8_composite_actions_propagate failOnLoginLink
      [DriverCall.click HomeLocators.MY_ACCOUNT_DROPDOWN]
      (DriverCall.click HomeLocators.LOGIN_LINK)
      [DriverCall.waitForLoadState "networkidle"]
      "element is not attached to the DOM" "" "").1 rfl
    (by
      intro d hd
      have hd2 := List.mem_singleton.mp hd
      subst hd2
      rfl)
    (by
      show failOnLoginLink (DriverCall.click HomeLocators.LOGIN_LINK) = _
      simp [failOnLoginLink])

/-- C9: every navigation verb (`navigate`, `reload`, `go_back`,
`go_forward`) performs its driver navigation call and then waits for the
network-idle load state; when that wait times out the verb raises the
timeout error instead of returning, and on success the verb returns only
after the navigation call and the settle wait were both issued in order. -/
theorem C9_navigation_settles {ε : Type} (behave : DriverCall → Except ε Unit)
    (baseUrl path : String) (e : ε) :
    (behave (.goto (baseUrl ++ path)) = .ok () →
      behave (.waitForLoadState "networkidle") = .error e →
      runSteps behave (navigateSteps baseUrl path) = .error e) ∧
    ((∀ d ∈ navigateSteps baseUrl path, behave d = .ok ()) →
      runSteps behave (navigateSteps baseUrl path) = .ok () ∧
      attempted behave (navigateSteps baseUrl path) =
        [.goto (baseUrl ++ path), .waitForLoadState "networkidle"]) ∧
    (behave .reloadPage = .ok () →
      behave (.waitForLoadState "networkidle") = .error e →
      runSteps behave reloadSteps = .error e) ∧
    ((∀ d ∈ reloadSteps, behave d = .ok ()) →
      runSteps behave reloadSteps = .ok () ∧
      attempted behave reloadSteps = [.reloadPage, .waitForLoadState "networkidle"]) ∧
    (behave .goBack = .ok () →
      behave (.waitForLoadState "networkidle") = .error e →
      runSteps behave goBackSteps = .error e) ∧
    ((∀ d ∈ goBackSteps, behave d = .ok ()) →
      runSteps behave goBackSteps = .ok () ∧
      attempted behave goBackSteps = [.goBack, .waitForLoadState "networkidle"]) ∧
    (behave .goForward = .ok () →
      behave (.waitForLoadState "networkidle") = .error e →
      runSteps behave goForwardSteps = .error e) ∧
    ((∀ d ∈ goForwardSteps, behave d = .ok ()) →
      runSteps behave goForwardSteps = .ok () ∧
      attempted behave goForwardSteps = [.goForward, .waitForLoadState "networkidle"]) := by
  refine ⟨?_, ?_, ?_, ?_, ?_, ?_, ?_, ?_⟩
  · intro h1 h2
    simp [navigateSteps, runSteps, h1, h2]
  · intro h
    exact runSteps_all_ok behave (navigateSteps baseUrl path) h
  · intro h1 h2
    simp [reloadSteps, runSteps, h1, h2]
  · intro h
    exact runSteps_all_ok behave reloadSteps h
  · intro h1 h2
    simp [goBackSteps, runSteps, h1, h2]
  · intro h
    exact runSteps_all_ok behave goBackSteps h
  · intro h1 h2
    simp [goForwardSteps, runSteps, h1, h2]
  · intro h
    exact runSteps_all_ok behave goForwardSteps h

/-- C9 witness: `navigate` against a page that never settles raises the
timeout error of the network-idle wait. -/
theorem C9_navigation_witness :
    runSteps neverSettles (navigateSteps "http://192.168.50.103:8080" "/index.php") =
      .error "Timeout 30000ms exceeded" :=
  (C9_navigation_settles neverSettles "http://192.168.50.103:8080" "/index.php"
      "Timeout 30000ms exceeded").1 rfl rfl

/-- C10: whenever `login` succeeds it sets the `OCSESSID` session cookie
with the hardcoded domain `192.168.50.103` and path `/`, for every client
state — in particular for every `base_url` — so the stored authentication
cookie is bound to that fixed host even when the client targets another
host. -/
theorem C10_cookie_fixed_domain (st : ClientState) (status : Nat)
    (body : JsonObj) (tok : Json)
    (herr : body.lookup "error" = none)
    (htok : body.lookup "api_token" = some tok) :
    ∃ st2, login st status body = .ok st2 ∧
      st2.base_url = st.base_url ∧
      ({ name := "OCSESSID", value := tok,
         domain := "192.168.50.103", path := "/" } : Cookie) ∈ st2.cookies := by
  refine ⟨_, login_token_ok st status body tok herr htok, rfl, ?_⟩
  simp [setCookie]

/-- C10 witness: the fixed-domain cookie theorem at a client whose
`base_url` names a different host from the cookie domain. -/
theorem C10_cookie_witness :
    ∃ st2,
      login { freshClient with base_url := "http://shop.example.org" } 200
          [("api_token", Json.str "abc123")] = .ok st2 ∧
      st2.base_url = ({ freshClient with base_url := "http://shop.example.org" } : ClientState).base_url ∧
      ({ name := "OCSESSID", value := Json.str "abc123",
         domain := "192.168.50.103", path := "/" } : Cookie) ∈ st2.cookies :=
  C10_cookie_fixed_domain { freshClient with base_url := "http://shop.example.org" }
    200 [("api_token", Json.str "abc123")] (Json.str "abc123") rfl rfl

end SmartQA
